import Mathlib

/-!
Verification of the transform object model and execution runtime of
`src/libs/transform.js` (tidyblocks).

Each `Transform*` class of the source becomes one constructor of the
`Transform` inductive type; the metadata installed by `TransformBase`'s
constructor (`name`, `requires`, `produces`, `input`, `output`) becomes a
function over that type, read off from each subclass's `super(...)` call.
`run(env, df)` becomes a state-passing function: it returns the Environment
as mutated up to the point of any failure (so the `appendLog` on entry is
visible even on error), the transform object after the call (so mutation of
a plot's `spec` is visible), and either an error or the returned value.

External collaborators that the source file requires but that are outside
it — the concrete DataFrame operations (`drop`, `filter`, ...), the
`ExprBase` expression objects, and the `simple-statistics` t-test
functions — are abstracted as parameters (`ExternalOps`, `Expr`), exactly
as the spec declares them external contracts.
-/

namespace TidyBlocks

/-- A cell value in a dataframe row (a JS primitive stored in a row object). -/
inductive Value
  | num (q : Rat)
  | str (s : String)
  | bool (b : Bool)
deriving DecidableEq

/-- A row object: a finite map from column names to values. -/
abbrev Row := List (String × Value)

/-- JS property access `row[col]`: `none` models `undefined` for a missing key. -/
def rowGet (row : Row) (col : String) : Option Value :=
  row.lookup col

/-- The external DataFrame value: a list of rows (`.data`) and the columns
argument with which it was constructed (`none` when the one-argument
constructor `new DataFrame(raw)` was used). -/
structure DataFrame where
  data : List Row
  columns : Option (List String)
deriving DecidableEq

/-- Stand-in for the external `ExprBase` objects: an identifier with the
external `equal` modelled as identifier equality. -/
structure Expr where
  id : Nat
deriving DecidableEq

/-- The per-variant chart shape: the spec object each plot subclass builds is
a constant JSON shape determined by these parameters (`TransformBar` etc.). -/
inductive ChartSpec
  | bar (axisX axisY : String)
  | box (axisX axisY : String)
  | dot (axisX : String)
  | histogram (column : String) (bins : Nat)
  | scatter (axisX axisY : String) (color : Option String)
deriving DecidableEq

/-- A plot spec as assembled by `TransformPlot`'s constructor:
`Object.assign({}, spec, fillin, {name})`, whose `data.values` slot starts
`null` and is overwritten by `run`. -/
structure PlotSpec where
  chart : ChartSpec
  name : String
  dataValues : Option (List Row)
deriving DecidableEq

/-- One constructor per `Transform*` subclass of src/libs/transform.js,
carrying the fields its constructor stores on `this`. The five plot
subclasses all share `TransformPlot`'s behaviour and differ only in the
stored `name` and spec shape, so they share the `plot` constructor. -/
inductive Transform
  | data (dataset : String)
  | drop (columns : List String)
  | filter (expr : Expr)
  | groupBy (columns : List String)
  | join (leftName leftCol rightName rightCol : String)
  | mutate (newName : String) (expr : Expr)
  | notify (label : String)
  | select (columns : List String)
  | sequence (newName : String) (limit : Nat)
  | sort (columns : List String) (reverse : Bool)
  | summarize (op column : String)
  | ungroup
  | unique (columns : List String)
  | plot (name label : String) (spec : PlotSpec)
  | ttest_one (label colName : String) (mean : Rat)
  | ttest_two (label labelCol valueCol : String)
deriving DecidableEq

namespace Transform

/-- The `name` argument each subclass passes to `super(...)`. -/
def name : Transform → String
  | .data _ => "read"
  | .drop _ => "drop"
  | .filter _ => "filter"
  | .groupBy _ => "groupBy"
  | .join .. => "join"
  | .mutate .. => "mutate"
  | .notify _ => "notify"
  | .select _ => "select"
  | .sequence .. => "sequence"
  | .sort .. => "sort"
  | .summarize .. => "summarize"
  | .ungroup => "ungroup"
  | .unique _ => "unique"
  | .plot n _ _ => n
  | .ttest_one .. => "ttest_one"
  | .ttest_two .. => "ttest_two"

/-- The `requires` argument each subclass passes to `super(...)`:
`[leftName, rightName]` for `TransformJoin`, `[]` for every other subclass
(including `TransformData`, which passes `[]` at line 64). -/
def requires : Transform → List String
  | .join ln _ rn _ => [ln, rn]
  | _ => []

/-- The `produces` argument each subclass passes to `super(...)`. -/
def produces : Transform → Option String
  | .notify label => some label
  | _ => none

/-- The `input` flag each subclass passes to `super(...)`. -/
def input : Transform → Bool
  | .data _ => false
  | .join .. => false
  | _ => true

/-- The `output` flag each subclass passes to `super(...)`. -/
def output : Transform → Bool
  | .notify _ => false
  | .plot .. => false
  | .ttest_one .. => false
  | .ttest_two .. => false
  | _ => true

/-- The `columns` field, present exactly on the subclasses that store one
(`'columns' in this`). -/
def columnList : Transform → Option (List String)
  | .drop cs => some cs
  | .groupBy cs => some cs
  | .select cs => some cs
  | .sort cs _ => some cs
  | .unique cs => some cs
  | _ => none

/-- `TransformBase.equalColumns` (lines 42-51): both objects must have a
`columns` field (`util.check` throws — modelled `none` — otherwise), then
same `name`, same length, and one-directional inclusion of `this.columns`
in `other.columns`. -/
def equalColumns (t₁ t₂ : Transform) : Option Bool :=
  match t₁.columnList, t₂.columnList with
  | some c₁, some c₂ =>
      some (t₁.name == t₂.name && c₁.length == c₂.length &&
            c₁.all (fun x => c₂.contains x))
  | _, _ => none

/-- The per-subclass `equal` methods: `TransformBase.equal` compares names;
subclasses conjoin their own stored fields (a field access on an `other` of
a different subclass yields `undefined` and compares unequal, modelled by
the catch-all `false`); the column-bearing subclasses delegate to
`equalColumns` (so `TransformSort.equal` ignores `reverse`). -/
def equal (t₁ t₂ : Transform) : Option Bool :=
  match t₁ with
  | .data d₁ =>
      some (t₁.name == t₂.name &&
            match t₂ with | .data d₂ => d₁ == d₂ | _ => false)
  | .drop _ => t₁.equalColumns t₂
  | .groupBy _ => t₁.equalColumns t₂
  | .select _ => t₁.equalColumns t₂
  | .sort _ _ => t₁.equalColumns t₂
  | .unique _ => t₁.equalColumns t₂
  | .filter e₁ =>
      some (t₁.name == t₂.name &&
            match t₂ with | .filter e₂ => e₁ == e₂ | _ => false)
  | .join ln lc rn rc =>
      some (t₁.name == t₂.name &&
            match t₂ with
            | .join ln₂ lc₂ rn₂ rc₂ =>
                ln == ln₂ && lc == lc₂ && rn == rn₂ && rc == rc₂
            | _ => false)
  | .mutate n e =>
      some (t₁.name == t₂.name &&
            match t₂ with | .mutate n₂ e₂ => n == n₂ && e == e₂ | _ => false)
  | .notify l =>
      some (t₁.name == t₂.name &&
            match t₂ with | .notify l₂ => l == l₂ | _ => false)
  | .sequence n lim =>
      some (t₁.name == t₂.name &&
            match t₂ with
            | .sequence n₂ lim₂ => n == n₂ && lim == lim₂
            | _ => false)
  | .summarize op col =>
      some (t₁.name == t₂.name &&
            match t₂ with
            | .summarize op₂ col₂ => op == op₂ && col == col₂
            | _ => false)
  | .ungroup => some (t₁.name == t₂.name)
  | .plot .. => some (t₁.name == t₂.name)
  | .ttest_one .. => some (t₁.name == t₂.name)
  | .ttest_two .. => some (t₁.name == t₂.name)

end Transform

/-- The runtime failures of §7's taxonomy, plus the JS `TypeError` raised by
a property access on a `null` dataframe. -/
inductive RunError
  | invariantViolation
  | invalidGrouping
  | dependencyUnavailable
  | typeError
deriving DecidableEq

/-- The Environment contract: named datasets, append-only log, plot store,
statistics store. `setPlot`/`setStats` are overwrite-by-label; lookups read
the most recent write first. -/
structure Env where
  datasets : List (String × DataFrame)
  log : List String
  plots : List (String × PlotSpec)
  stats : List (String × Rat)
deriving DecidableEq

def Env.appendLog (env : Env) (nm : String) : Env :=
  { env with log := env.log ++ [nm] }

def Env.getData (env : Env) (nm : String) : Option DataFrame :=
  env.datasets.lookup nm

def Env.setPlot (env : Env) (label : String) (spec : PlotSpec) : Env :=
  { env with plots := (label, spec) :: env.plots }

def Env.setStats (env : Env) (label : String) (value : Rat) : Env :=
  { env with stats := (label, value) :: env.stats }

/-- The external operations a `run` delegates to: the DataFrame methods and
the `simple-statistics` t-tests (all outside this source file). -/
structure ExternalOps where
  tTest : List (Option Value) → Rat → Rat
  tTestTwoSample : List (Option Value) → List (Option Value) → Rat → Rat
  dfDrop : DataFrame → List String → DataFrame
  dfFilter : DataFrame → Expr → DataFrame
  dfGroupBy : DataFrame → List String → DataFrame
  dfJoin : DataFrame → String → String → DataFrame → String → String → DataFrame
  dfMutate : DataFrame → String → Expr → DataFrame
  dfSelect : DataFrame → List String → DataFrame
  dfSort : DataFrame → List String → Bool → DataFrame
  dfSummarize : DataFrame → String → String → DataFrame
  dfUngroup : DataFrame → DataFrame
  dfUnique : DataFrame → List String → DataFrame

/-- What a `run(env, df)` call leaves behind: the Environment as mutated up
to the return or failure point, the transform object afterwards (mutable in
JS), and the returned value — `ok none` models a `return`-less method
returning `undefined`. -/
structure RunResult where
  env : Env
  transform : Transform
  result : Except RunError (Option DataFrame)

/-- One step of `new Set(...)` insertion: keep insertion order, skip
duplicates. -/
def jsInsert {α : Type} [DecidableEq α] (acc : List α) (v : α) : List α :=
  if v ∈ acc then acc else acc ++ [v]

/-- `Array.from(new Set(l))`: the distinct elements of `l` in first-seen
order. -/
def jsSetOf {α : Type} [DecidableEq α] (l : List α) : List α :=
  l.foldl jsInsert []

/-- The `run(env, df)` methods, one match arm per subclass, translated
line-for-line from src/libs/transform.js. Every arm appends the stage name
to the log first; `util.check` failures surface as the error the spec names
for them. -/
def Transform.run (ops : ExternalOps) (t : Transform) (env : Env)
    (df : Option DataFrame) : RunResult :=
  let env₁ := env.appendLog t.name
  match t with
  | .data dataset =>
      match df with
      | some _ => ⟨env₁, t, .error .invariantViolation⟩
      | none =>
          match env₁.getData dataset with
          | none => ⟨env₁, t, .error .dependencyUnavailable⟩
          | some loaded => ⟨env₁, t, .ok (some ⟨loaded.data, loaded.columns⟩)⟩
  | .drop cols =>
      match df with
      | none => ⟨env₁, t, .error .typeError⟩
      | some d => ⟨env₁, t, .ok (some (ops.dfDrop d cols))⟩
  | .filter e =>
      match df with
      | none => ⟨env₁, t, .error .typeError⟩
      | some d => ⟨env₁, t, .ok (some (ops.dfFilter d e))⟩
  | .groupBy cols =>
      match df with
      | none => ⟨env₁, t, .error .typeError⟩
      | some d => ⟨env₁, t, .ok (some (ops.dfGroupBy d cols))⟩
  | .join leftName leftCol rightName rightCol =>
      match df with
      | some _ => ⟨env₁, t, .error .invariantViolation⟩
      | none =>
          match env₁.getData leftName, env₁.getData rightName with
          | some left, some right =>
              ⟨env₁, t,
               .ok (some (ops.dfJoin left leftName leftCol
                            right rightName rightCol))⟩
          | _, _ => ⟨env₁, t, .error .dependencyUnavailable⟩
  | .mutate newName e =>
      match df with
      | none => ⟨env₁, t, .error .typeError⟩
      | some d => ⟨env₁, t, .ok (some (ops.dfMutate d newName e))⟩
  | .notify _ => ⟨env₁, t, .ok df⟩
  | .select cols =>
      match df with
      | none => ⟨env₁, t, .error .typeError⟩
      | some d => ⟨env₁, t, .ok (some (ops.dfSelect d cols))⟩
  | .sequence newName limit =>
      let raw : List Row :=
        (List.range limit).map (fun k => [(newName, Value.num ((k + 1 : Nat) : Rat))])
      ⟨env₁, t, .ok (some ⟨raw, none⟩)⟩
  | .sort cols reverse =>
      match df with
      | none => ⟨env₁, t, .error .typeError⟩
      | some d => ⟨env₁, t, .ok (some (ops.dfSort d cols reverse))⟩
  | .summarize op column =>
      match df with
      | none => ⟨env₁, t, .error .typeError⟩
      | some d => ⟨env₁, t, .ok (some (ops.dfSummarize d op column))⟩
  | .ungroup =>
      match df with
      | none => ⟨env₁, t, .error .typeError⟩
      | some d => ⟨env₁, t, .ok (some (ops.dfUngroup d))⟩
  | .unique cols =>
      match df with
      | none => ⟨env₁, t, .error .typeError⟩
      | some d => ⟨env₁, t, .ok (some (ops.dfUnique d cols))⟩
  | .plot nm label spec =>
      match df with
      | none => ⟨env₁, t, .error .typeError⟩
      | some d =>
          let newSpec := { spec with dataValues := some d.data }
          ⟨env₁.setPlot label newSpec, .plot nm label newSpec, .ok none⟩
  | .ttest_one label colName mean =>
      match df with
      | none => ⟨env₁, t, .error .typeError⟩
      | some d =>
          let samples := d.data.map (fun row => rowGet row colName)
          ⟨env₁.setStats label (ops.tTest samples mean), t, .ok (some d)⟩
  | .ttest_two label labelCol valueCol =>
      match df with
      | none => ⟨env₁, t, .error .typeError⟩
      | some d =>
          let labels := d.data.map (fun row => rowGet row labelCol)
          match jsSetOf labels with
          | [leftVal, rightVal] =>
              let leftVals :=
                (d.data.filter (fun row => rowGet row labelCol == leftVal)).map
                  (fun row => rowGet row valueCol)
              let rightVals :=
                (d.data.filter (fun row => rowGet row labelCol == rightVal)).map
                  (fun row => rowGet row valueCol)
              ⟨env₁.setStats label (ops.tTestTwoSample leftVals rightVals 0),
               t, .ok (some d)⟩
          | _ => ⟨env₁, t, .error .invalidGrouping⟩

/-- Failure mode of `TransformSummarize`'s construction-time check. -/
inductive ConstructionError
  | unknownOperation
deriving DecidableEq

/-- Modelled from the spec: the `Summarize` module (`require('./summarize')`),
the closed registry of summarizer operations whose member names the
constructor check `op in Summarize` (src/libs/transform.js line 324)
consults, is not under src/; it is abstracted here as the list of its
member names, and the `in` check becomes list membership. Success stores
`op` and `column` on the object. -/
def mkSummarize (registry : List String) (op column : String) :
    Except ConstructionError Transform :=
  if op ∈ registry then .ok (.summarize op column)
  else .error .unknownOperation

/-! Concrete fixtures used by witness and counterexample theorems. -/

/-- A trivial instantiation of the external operations, for evaluating
runs on concrete inputs. -/
def opsZero : ExternalOps :=
  ⟨fun _ _ => 0, fun _ _ _ => 0,
   fun d _ => d, fun d _ => d, fun d _ => d,
   fun l _ _ _ _ _ => l,
   fun d _ _ => d, fun d _ => d, fun d _ _ => d, fun d _ _ => d,
   fun d => d, fun d _ => d⟩

def envEmpty : Env := ⟨[], [], [], []⟩

def dfIris : DataFrame := ⟨[[("sepal", Value.num 5)]], some ["sepal"]⟩

/-- An Environment holding one dataset, named `iris`. -/
def envIris : Env := ⟨[("iris", dfIris)], [], [], []⟩

/-- A dataframe with zero rows. -/
def dfEmpty : DataFrame := ⟨[], none⟩

/-- A one-row dataframe. -/
def dfOne : DataFrame := ⟨[[("x", Value.str "a")]], none⟩

/-- A bar-plot transform as `TransformBar('figure', 'x', 'y')` builds it:
spec with `data.values` still null. -/
def barPlot : Transform :=
  .plot "bar" "figure" ⟨.bar "x" "y", "bar", none⟩

/-- Rows whose `g` column holds two distinct labels. -/
def dfTwoLabels : DataFrame :=
  ⟨[[("g", Value.str "a"), ("v", Value.num 1)],
    [("g", Value.str "b"), ("v", Value.num 2)]], none⟩

/-- Rows whose `g` column holds three distinct labels. -/
def dfThreeLabels : DataFrame :=
  ⟨[[("g", Value.str "a")], [("g", Value.str "b")], [("g", Value.str "c")]],
   none⟩

/-- Rows whose `g` column holds a single label. -/
def dfOneLabel : DataFrame :=
  ⟨[[("g", Value.str "a"), ("v", Value.num 1)],
    [("g", Value.str "a"), ("v", Value.num 2)]], none⟩

/-! Supporting lemmas. -/

theorem log_appendLog (env : Env) (nm : String) :
    (env.appendLog nm).log = env.log ++ [nm] := rfl

theorem log_setPlot (env : Env) (label : String) (spec : PlotSpec) :
    (env.setPlot label spec).log = env.log := rfl

theorem log_setStats (env : Env) (label : String) (value : Rat) :
    (env.setStats label value).log = env.log := rfl

theorem getData_appendLog (env : Env) (nm nm' : String) :
    (env.appendLog nm').getData nm = env.getData nm := rfl

/-! Claims C7 — every variant logs its stage name on entry -/

/-- C7: for every Transform variant and every call `run(env, df)`, a log
entry recording the stage's kind (its `name`) is appended to the
Environment on entry, whether or not the run subsequently succeeds. -/
theorem run_appends_log (ops : ExternalOps) (t : Transform) (env : Env)
    (df : Option DataFrame) :
    (t.run ops env df).env.log = env.log ++ [t.name] := by
  cases t <;> cases df <;>
    simp only [Transform.run, Transform.name] <;>
    first
      | rfl
      | (split <;> rfl)

/-! Claims C5 — immutability of Transforms across run -/

/-- The transform object after a `run` call: unchanged, except that a plot
transform run on a dataframe has its spec's `data.values` slot overwritten
with that dataframe's rows. -/
def transformAfterRun (t : Transform) (df : Option DataFrame) : Transform :=
  match t, df with
  | .plot n l spec, some d => .plot n l { spec with dataValues := some d.data }
  | _, _ => t

/-- C5 (amended): every Transform other than the plot variants is unchanged
by `run`; a plot Transform's `name` and `label` are also unchanged, but
`run` overwrites its spec's `data.values` slot with the input dataframe's
rows (when no dataframe is supplied, the run fails before that write and
the Transform is unchanged). -/
theorem run_preserves_transform (ops : ExternalOps) (t : Transform)
    (env : Env) (df : Option DataFrame) :
    (t.run ops env df).transform = transformAfterRun t df := by
  cases t <;> cases df <;>
    simp only [Transform.run, transformAfterRun] <;>
    first
      | rfl
      | (split <;> rfl)

/-- C5 counterexample: running a bar-plot Transform on a one-row dataframe
changes the Transform — its `spec.data.values` slot is overwritten — so it
is not immutable after construction as the claim states. -/
theorem transform_mutated_by_plot_run :
    (barPlot.run opsZero envEmpty (some dfOne)).transform ≠ barPlot := by
  decide

/-! Claims C4 — what a plot run does -/

/-- C4 (amended): for every plot-variant Transform and every Environment and
dataframe, `run(env, df)` registers the chart specification (with
`data.values` set to the input's rows) under the Transform's label in the
Environment — and returns `undefined` (no dataframe), not the input
dataframe; the stage declares `output = false`, so it is terminal in the
chain. -/
theorem plot_run_registers_spec (ops : ExternalOps) (env : Env)
    (nm label : String) (spec : PlotSpec) (d : DataFrame) :
    ((Transform.plot nm label spec).run ops env (some d)).env.plots.lookup label
        = some { spec with dataValues := some d.data } ∧
      ((Transform.plot nm label spec).run ops env (some d)).result = .ok none ∧
      (Transform.plot nm label spec).output = false := by
  refine ⟨?_, rfl, rfl⟩
  simp [Transform.run, Env.setPlot, List.lookup]

/-- C4 counterexample: a bar-plot `run` on a concrete one-row dataframe
returns `undefined` (modelled `none`), which is not the input dataframe —
refuting the claim that plot runs return the input dataframe unchanged. -/
theorem plot_run_returns_nothing :
    (barPlot.run opsZero envEmpty (some dfOne)).result = .ok none ∧
      (none : Option DataFrame) ≠ some dfOne :=
  ⟨rfl, by decide⟩

/-! Claims C3 — the read Transform's run -/

/-- C3 (amended): a read Transform's `run` fails with `InvariantViolation`
exactly when any dataframe at all — even an empty one — is supplied
(`util.check(df === null)`); given a null input it fetches the dataset
named at construction from the Environment and returns a fresh dataframe
materialized from its data and columns, failing with
`DependencyUnavailable` when that dataset is absent. -/
theorem read_run_null_check (ops : ExternalOps) (env : Env) (dataset : String) :
    (∀ d : DataFrame,
        ((Transform.data dataset).run ops env (some d)).result
          = .error .invariantViolation) ∧
      (∀ loaded : DataFrame, env.getData dataset = some loaded →
        ((Transform.data dataset).run ops env none).result
          = .ok (some ⟨loaded.data, loaded.columns⟩)) ∧
      (env.getData dataset = none →
        ((Transform.data dataset).run ops env none).result
          = .error .dependencyUnavailable) := by
  refine ⟨fun d => rfl, fun loaded h => ?_, fun h => ?_⟩ <;>
    simp [Transform.run, getData_appendLog, h]

/-- C3 witness: with `iris` present in the Environment and a null input,
the read succeeds and materializes the stored dataset. -/
theorem read_run_null_check_witness :
    ((Transform.data "iris").run opsZero envIris none).result
      = .ok (some ⟨dfIris.data, dfIris.columns⟩) :=
  (read_run_null_check opsZero envIris "iris").2.1 dfIris rfl

/-- C3 counterexample: supplying an *empty* dataframe (zero rows) to a read
Transform already fails with `InvariantViolation`, though the claim says
that error occurs exactly when a non-empty dataframe is supplied. -/
theorem read_run_rejects_empty_df :
    dfEmpty.data = [] ∧
      ((Transform.data "iris").run opsZero envIris (some dfEmpty)).result
        = .error .invariantViolation :=
  ⟨rfl, rfl⟩

/-! Claims C8 — the requires field -/

/-- C8 (amended): `requires` is the ordered list of upstream dataset names a
stage waits for; it is `[leftName, rightName]` for `join` and empty for
every other stage kind — including `read`, which passes `[]` and instead
fetches its dataset from the Environment at run time. A join run on a null
input succeeds exactly when every name in its `requires` has a dataset in
the Environment, and fails with `DependencyUnavailable` otherwise. -/
theorem requires_join_only :
    (∀ ln lc rn rc : String, (Transform.join ln lc rn rc).requires = [ln, rn]) ∧
      (∀ ds : String, (Transform.data ds).requires = []) ∧
      (∀ t : Transform, (∀ ln lc rn rc, t ≠ .join ln lc rn rc) →
        t.requires = []) ∧
      (∀ (ops : ExternalOps) (env : Env) (ln lc rn rc : String),
        (∀ nm ∈ (Transform.join ln lc rn rc).requires, env.getData nm ≠ none) →
        ∃ d, ((Transform.join ln lc rn rc).run ops env none).result
          = .ok (some d)) ∧
      (∀ (ops : ExternalOps) (env : Env) (ln lc rn rc : String),
        env.getData ln = none ∨ env.getData rn = none →
        ((Transform.join ln lc rn rc).run ops env none).result
          = .error .dependencyUnavailable) := by
  refine ⟨fun _ _ _ _ => rfl, fun _ => rfl, ?_, ?_, ?_⟩
  · intro t h
    cases t <;> first | rfl | exact absurd rfl (h _ _ _ _)
  · intro ops env ln lc rn rc h
    have hl := h ln (by simp [Transform.requires])
    have hr := h rn (by simp [Transform.requires])
    simp only [Transform.run, getData_appendLog]
    cases hl' : env.getData ln with
    | none => exact absurd hl' hl
    | some left =>
        cases hr' : env.getData rn with
        | none => exact absurd hr' hr
        | some right => exact ⟨_, rfl⟩
  · intro ops env ln lc rn rc h
    simp only [Transform.run, getData_appendLog]
    cases hl' : env.getData ln <;> cases hr' : env.getData rn <;>
      simp_all

/-- C8 witness: a concrete join whose two required datasets are present
succeeds, and its `requires` list is exactly the two operand names. -/
theorem requires_join_only_witness :
    (Transform.join "L" "lc" "R" "rc").requires = ["L", "R"] ∧
      ∃ d, ((Transform.join "L" "lc" "R" "rc").run opsZero
          ⟨[("L", dfEmpty), ("R", dfEmpty)], [], [], []⟩ none).result
        = .ok (some d) :=
  ⟨requires_join_only.1 "L" "lc" "R" "rc",
   requires_join_only.2.2.2.1 opsZero
     ⟨[("L", dfEmpty), ("R", dfEmpty)], [], [], []⟩ "L" "lc" "R" "rc"
     (by decide)⟩

/-- C8 counterexample: a read Transform's `requires` does not contain the
dataset it reads — `TransformData` passes `[]` to `super`, so the claim
that read's `requires` is non-empty fails. -/
theorem read_requires_is_empty :
    ¬ ("iris" ∈ (Transform.data "iris").requires) := by
  decide

/-! Claims C6 — summarize construction validates the operation name -/

/-- C6: constructing a summarize Transform fails at construction time with
`UnknownOperation` whenever the requested operation name is not a member of
the closed registry of summarizers, and succeeds for every member of that
registry with a string column name. -/
theorem summarize_construction_check (registry : List String)
    (op column : String) :
    (op ∈ registry →
        mkSummarize registry op column = .ok (.summarize op column)) ∧
      (op ∉ registry →
        mkSummarize registry op column = .error .unknownOperation) := by
  constructor <;> intro h <;> simp [mkSummarize, h]

/-- C6 witness: a member of a concrete registry constructs successfully; a
non-member fails with `UnknownOperation`. -/
theorem summarize_construction_check_witness :
    mkSummarize ["mean", "sum"] "mean" "c" = .ok (.summarize "mean" "c") ∧
      mkSummarize ["mean", "sum"] "median" "c" = .error .unknownOperation :=
  ⟨(summarize_construction_check ["mean", "sum"] "mean" "c").1 (by decide),
   (summarize_construction_check ["mean", "sum"] "median" "c").2 (by decide)⟩

/-! Claims C9 — the sequence Transform's run -/

/-- C9: for every string `newName` and nonnegative integer `limit`, a
sequence Transform's `run(env, df)` ignores the input dataframe and returns
a new DataFrame of exactly `limit` rows, each with the single column
`newName`, whose values are the integers 1 through `limit` in increasing
order. -/
theorem sequence_run_rows (ops : ExternalOps) (env : Env)
    (df : Option DataFrame) (newName : String) (limit : Nat) :
    ∃ rows : List Row,
      (Transform.sequence newName limit).run ops env df
          = ⟨env.appendLog "sequence", .sequence newName limit,
             .ok (some ⟨rows, none⟩)⟩ ∧
        rows.length = limit ∧
        (∀ i : Nat, i < limit →
          rows[i]? = some [(newName, Value.num ((i + 1 : Nat) : Rat))]) ∧
        (Transform.sequence newName limit).run ops env df
          = (Transform.sequence newName limit).run ops env none := by
  refine ⟨(List.range limit).map
      (fun k => [(newName, Value.num ((k + 1 : Nat) : Rat))]),
    rfl, by simp, ?_, rfl⟩
  intro i hi
  simp [List.getElem?_map, List.getElem?_range hi]

/-- C9 witness: a sequence of limit 3, run on a null dataframe, yields rows
1, 2, 3 under the new column name. -/
theorem sequence_run_rows_witness :
    ∃ rows : List Row,
      rows.length = 3 ∧ rows[0]? = some [("n", Value.num 1)] ∧
        rows[2]? = some [("n", Value.num 3)] := by
  obtain ⟨rows, _, hlen, hidx, _⟩ :=
    sequence_run_rows opsZero envEmpty none "n" 3
  exact ⟨rows, hlen, by simpa using hidx 0 (by decide),
    by simpa using hidx 2 (by decide)⟩

/-! Claims C2 — order-insensitive column equality for drop -/

/-- For same-kind column-bearing transforms, a permutation of the column
list leaves `equal` true: lengths agree and one-directional inclusion
holds. -/
theorem drop_equal_perm (cols₁ cols₂ : List String) (h : cols₁.Perm cols₂) :
    (Transform.drop cols₁).equal (Transform.drop cols₂) = some true := by
  simp only [Transform.equal, Transform.equalColumns, Transform.columnList,
    Transform.name, Option.some.injEq]
  simp [h.length_eq, List.all_eq_true]
  intro x hx
  exact h.mem_iff.mp hx

/-- C2: for a column-bearing stage kind such as drop, `equal` is
order-insensitive on the column lists — `{a,b}` equals `{b,a}` (and, in
general, any permutation of the columns compares equal), while `{a,b}` does
not equal `{a,c}` when `b` is outside `{a,c}`. -/
theorem drop_equal_order_insensitive (a b c : String)
    (hba : b ≠ a) (hbc : b ≠ c) :
    (Transform.drop [a, b]).equal (Transform.drop [b, a]) = some true ∧
      (Transform.drop [a, b]).equal (Transform.drop [a, c]) = some false ∧
      (∀ cols₁ cols₂ : List String, cols₁.Perm cols₂ →
        (Transform.drop cols₁).equal (Transform.drop cols₂) = some true) := by
  refine ⟨drop_equal_perm _ _ (List.Perm.swap b a []), ?_,
    fun c₁ c₂ h => drop_equal_perm _ _ h⟩
  simp only [Transform.equal, Transform.equalColumns, Transform.columnList,
    Transform.name, Option.some.injEq]
  simp [hba, hbc]

/-- C2 witness: concrete drop transforms over columns `a`, `b`, `c`. -/
theorem drop_equal_order_insensitive_witness :
    (Transform.drop ["a", "b"]).equal (Transform.drop ["b", "a"]) = some true ∧
      (Transform.drop ["a", "b"]).equal (Transform.drop ["a", "c"])
        = some false := by
  have h := drop_equal_order_insensitive "a" "b" "c" (by decide) (by decide)
  exact ⟨h.1, h.2.1⟩

/-! Claims C10 — equalColumns versus set equality -/

/-- C10: for same-kind column-bearing Transforms whose column lists contain
no duplicates, `equalColumns` returns true iff the two lists are equal as
sets; with duplicates the equivalence fails (`["a","a"]` vs `["a","c"]`
compares true though the sets differ) and the relation is not symmetric
(the reversed comparison is false). -/
theorem equalColumns_set_equiv :
    (∀ (t₁ t₂ : Transform) (c₁ c₂ : List String),
        t₁.columnList = some c₁ → t₂.columnList = some c₂ →
        t₁.name = t₂.name → c₁.Nodup → c₂.Nodup →
        (t₁.equalColumns t₂ = some true ↔ ∀ x, x ∈ c₁ ↔ x ∈ c₂)) ∧
      ((Transform.drop ["a", "a"]).equalColumns (Transform.drop ["a", "c"])
          = some true ∧
        "c" ∈ (["a", "c"] : List String) ∧
        "c" ∉ (["a", "a"] : List String)) ∧
      (Transform.drop ["a", "c"]).equalColumns (Transform.drop ["a", "a"])
        = some false := by
  refine ⟨?_, by decide, by decide⟩
  intro t₁ t₂ c₁ c₂ h₁ h₂ hname hn₁ hn₂
  simp only [Transform.equalColumns, h₁, h₂, hname, Option.some.injEq]
  simp only [beq_self_eq_true, Bool.true_and, Bool.and_eq_true, beq_iff_eq,
    List.all_eq_true, List.contains, List.elem_eq_mem, decide_eq_true_eq]
  constructor
  · rintro ⟨hlen, hsub⟩ x
    have hsubf : c₁.toFinset ⊆ c₂.toFinset := by
      intro y hy
      rw [List.mem_toFinset] at hy ⊢
      exact hsub y hy
    have hcard : c₂.toFinset.card ≤ c₁.toFinset.card := by
      rw [List.toFinset_card_of_nodup hn₁, List.toFinset_card_of_nodup hn₂,
        hlen]
    have heq := Finset.eq_of_subset_of_card_le hsubf hcard
    constructor
    · exact hsub x
    · intro hx
      rw [← List.mem_toFinset, ← heq, List.mem_toFinset] at hx
      exact hx
  · intro hiff
    have heq : c₁.toFinset = c₂.toFinset := by
      ext x
      rw [List.mem_toFinset, List.mem_toFinset]
      exact hiff x
    refine ⟨?_, fun x hx => (hiff x).mp hx⟩
    rw [← List.toFinset_card_of_nodup hn₁, ← List.toFinset_card_of_nodup hn₂,
      heq]

/-- C10 witness: the iff applied to concrete duplicate-free lists. -/
theorem equalColumns_set_equiv_witness :
    (Transform.drop ["x", "y"]).equalColumns (Transform.drop ["y", "x"])
      = some true :=
  (equalColumns_set_equiv.1 (Transform.drop ["x", "y"])
      (Transform.drop ["y", "x"]) ["x", "y"] ["y", "x"] rfl rfl rfl
      (by decide) (by decide)).mpr
    (by
      intro x
      constructor <;> (intro h; rw [List.mem_cons, List.mem_cons] at h ⊢; tauto))

/-! Claims C1 — the paired t-test's grouping check -/

theorem mem_jsInsert {α : Type} [DecidableEq α] (acc : List α) (a x : α) :
    x ∈ jsInsert acc a ↔ x ∈ acc ∨ x = a := by
  unfold jsInsert
  split
  · rename_i ha
    constructor
    · exact Or.inl
    · rintro (hx | rfl)
      · exact hx
      · exact ha
  · simp [List.mem_append]

theorem mem_foldl_jsInsert {α : Type} [DecidableEq α] :
    ∀ (l acc : List α) (x : α),
      x ∈ l.foldl jsInsert acc ↔ x ∈ acc ∨ x ∈ l := by
  intro l
  induction l with
  | nil => intro acc x; simp
  | cons a as ih =>
      intro acc x
      rw [List.foldl_cons, ih, mem_jsInsert]
      simp only [List.mem_cons]
      tauto

theorem jsInsert_nodup {α : Type} [DecidableEq α] {acc : List α}
    (h : acc.Nodup) (a : α) : (jsInsert acc a).Nodup := by
  unfold jsInsert
  split
  · exact h
  · rename_i ha
    simp [List.nodup_append, h, ha]

theorem jsSetOf_nodup {α : Type} [DecidableEq α] (l : List α) :
    (jsSetOf l).Nodup := by
  suffices h : ∀ (l acc : List α), acc.Nodup → (l.foldl jsInsert acc).Nodup by
    exact h l [] List.nodup_nil
  intro l
  induction l with
  | nil => intro acc h; simpa using h
  | cons a as ih => intro acc h; exact ih _ (jsInsert_nodup h a)

theorem jsSetOf_toFinset {α : Type} [DecidableEq α] (l : List α) :
    (jsSetOf l).toFinset = l.toFinset := by
  ext x
  simp [jsSetOf, mem_foldl_jsInsert]

/-- The size of `new Set(l)` is the number of distinct elements of `l`. -/
theorem jsSetOf_length_eq_card {α : Type} [DecidableEq α] (l : List α) :
    (jsSetOf l).length = l.toFinset.card := by
  rw [← List.toFinset_card_of_nodup (jsSetOf_nodup l), jsSetOf_toFinset]

/-- C1: a paired t-test Transform's `run(env, df)` fails with
`InvalidGrouping` when the distinct values of the label column across the
dataframe's rows number 1 or 3 or more, and with exactly two distinct label
values it succeeds, records a numeric statistic in the Environment under
the Transform's label, and returns the input dataframe. -/
theorem ttest_paired_grouping (ops : ExternalOps) (env : Env)
    (label labelCol valueCol : String) (d : DataFrame) :
    (((d.data.map (fun row => rowGet row labelCol)).toFinset.card = 1 ∨
        3 ≤ (d.data.map (fun row => rowGet row labelCol)).toFinset.card) →
      ((Transform.ttest_two label labelCol valueCol).run ops env
          (some d)).result = .error .invalidGrouping) ∧
      ((d.data.map (fun row => rowGet row labelCol)).toFinset.card = 2 →
        ∃ p : Rat,
          ((Transform.ttest_two label labelCol valueCol).run ops env
              (some d)).env.stats.lookup label = some p ∧
          ((Transform.ttest_two label labelCol valueCol).run ops env
              (some d)).result = .ok (some d)) := by
  have hlen := jsSetOf_length_eq_card
    (d.data.map (fun row => rowGet row labelCol))
  constructor
  · intro hcard
    simp only [Transform.run]
    split
    · rename_i leftVal rightVal heq
      exfalso
      rw [heq] at hlen
      simp at hlen
      omega
    · rfl
  · intro hcard
    rw [hcard] at hlen
    obtain ⟨a, b, hab⟩ := List.length_eq_two.mp hlen
    refine ⟨ops.tTestTwoSample
        ((d.data.filter (fun row => rowGet row labelCol == a)).map
          (fun row => rowGet row valueCol))
        ((d.data.filter (fun row => rowGet row labelCol == b)).map
          (fun row => rowGet row valueCol)) 0, ?_, ?_⟩ <;>
      simp [Transform.run, hab, Env.setStats, List.lookup]

/-- C1 witness: two distinct labels succeed and record a statistic; three
distinct labels and one distinct label each fail with `InvalidGrouping`. -/
theorem ttest_paired_grouping_witness :
    (∃ p : Rat,
        ((Transform.ttest_two "t" "g" "v").run opsZero envEmpty
            (some dfTwoLabels)).env.stats.lookup "t" = some p ∧
        ((Transform.ttest_two "t" "g" "v").run opsZero envEmpty
            (some dfTwoLabels)).result = .ok (some dfTwoLabels)) ∧
      ((Transform.ttest_two "t" "g" "v").run opsZero envEmpty
          (some dfThreeLabels)).result = .error .invalidGrouping ∧
      ((Transform.ttest_two "t" "g" "v").run opsZero envEmpty
          (some dfOneLabel)).result = .error .invalidGrouping :=
  ⟨(ttest_paired_grouping opsZero envEmpty "t" "g" "v" dfTwoLabels).2
      (by decide),
   (ttest_paired_grouping opsZero envEmpty "t" "g" "v" dfThreeLabels).1
      (Or.inr (by decide)),
   (ttest_paired_grouping opsZero envEmpty "t" "g" "v" dfOneLabel).1
      (Or.inl (by decide))⟩

end TidyBlocks
